import Mathlib

/-! Verification of `ProcessGameState` (src/process_game_state.py).

Shallow embedding of the table-processing operations of the repository's
single source file.  A pandas `DataFrame` is modelled as a `Table`: a list of
column names together with an ordered list of labelled rows — each row
carries its integer index label (pandas row label), and the row itself is an
association list from column name to `Value` (the spec's "untyped mapping"
view of a row, §9 of the spec).  Row labels matter because column assignment
(`df[c] = pd.Series(vs)`) aligns on the index, not on position.  Numeric
cell values (`x`, `y`, `z`, `round_num`) are modelled as exact integers; the
polygon-containment primitive of the geometry library
(`shapely.geometry.Polygon.contains`, which tests membership in the
*interior* of the polygon, excluding its boundary) is modelled by an exact
even-odd ray-crossing test combined with an explicit boundary test.  The
shapely `Polygon` constructor raises only for a non-empty coordinate list of
fewer than 3 points; `Polygon([])` is the empty polygon, which contains no
point.

Python exceptions raised by an operation are modelled with `Except GameError`.
Operations that in Python could mutate objects are additionally embedded in a
state-passing form (`*_st`): the second component of the result is the
caller's input table after the call, tracing which object each in-place
method call is applied to.
-/

namespace ProcessGameState

/-- An inventory item record; `weapon_class := none` models an item record
that lacks a `weapon_class` field. -/
structure InvItem where
  weapon_class : Option String
deriving DecidableEq

/-- A cell value: string, integer-valued numeric, null (Python `None`),
an inventory (list of item records), or a list of strings (the derived
`weapon_classes` column). -/
inductive Value where
  | vStr (s : String)
  | vNum (n : Int)
  | vNull
  | vInv (items : List InvItem)
  | vStrList (ws : List String)
deriving DecidableEq

/-- A row: an association list from column name to value. -/
abbrev Row := List (String × Value)

/-- Dynamic cell access `row[c]`.  Under the spec's convention
(§3: expected columns are present by convention), a missing key is modelled
as a null cell. -/
def getCol (r : Row) (c : String) : Value :=
  match r.find? (fun p => p.1 == c) with
  | some p => p.2
  | none => Value.vNull

/-- Numeric view of a cell. -/
def getNum (r : Row) (c : String) : Option Int :=
  match getCol r c with
  | Value.vNum n => some n
  | _ => none

/-- Set (or append) one cell of a row. -/
def setEntry (r : Row) (c : String) (v : Value) : Row :=
  if r.any (fun p => p.1 == c) then
    r.map (fun p => if p.1 == c then (c, v) else p)
  else r ++ [(c, v)]

/-- A dataframe: column names plus ordered rows, each row paired with its
integer index label (the pandas row label).  A freshly loaded frame has the
default labels `0, 1, ..., n - 1`, but outputs of the filtering operations
keep the original labels and so generally do not. -/
structure Table where
  cols : List String
  rows : List (Int × Row)
deriving DecidableEq

/-- Model of `df.copy()`: a copy is a fresh independent value. -/
def tableCopy (t : Table) : Table := t

/-- Aligned lookup into a fresh `pd.Series(vs)` (whose labels are
`0, 1, ..., len(vs) - 1`) by row label: the row labelled `i` receives
`vs[i]` when `0 ≤ i < len(vs)`, and a missing value (`NaN`, modelled as
null) otherwise. -/
def seriesGet (vs : List Value) (i : Int) : Value :=
  if 0 ≤ i then vs.getD i.toNat Value.vNull else Value.vNull

/-- Model of `df[c] = pd.Series(vs)`: add (or overwrite) a column.  The
assignment aligns on the index: each row receives the series value at its
own label, not at its position. -/
def Table.setCol (t : Table) (c : String) (vs : List Value) : Table :=
  { cols := if t.cols.contains c then t.cols else t.cols ++ [c],
    rows := t.rows.map (fun lr => (lr.1, setEntry lr.2 c (seriesGet vs lr.1))) }

/-- Exceptions an operation can raise: `configurationError` for invalid
operation arguments (the shapely `ValueError` on a polygon with fewer than
3 vertices), `schemaError` for a missing expected field (the Python
`KeyError`), `typeError` for a non-iterable/ill-typed inventory cell. -/
inductive GameError where
  | configurationError
  | schemaError
  | typeError
deriving DecidableEq

instance {ε α : Type} [DecidableEq ε] [DecidableEq α] : DecidableEq (Except ε α) :=
  fun x y =>
    match x, y with
    | .error e, .error f =>
        if h : e = f then .isTrue (h ▸ rfl) else .isFalse (fun hc => h (Except.error.inj hc))
    | .error _, .ok _ => .isFalse (fun hc => Except.noConfusion hc)
    | .ok _, .error _ => .isFalse (fun hc => Except.noConfusion hc)
    | .ok a, .ok b =>
        if h : a = b then .isTrue (h ▸ rfl) else .isFalse (fun hc => h (Except.ok.inj hc))

/-! ## Geometry: `shapely.geometry.Polygon.contains(Point(x, y))`

`Polygon.contains` is true exactly when the point lies in the polygon's
interior; a point on the boundary is *not* contained.  For a simple polygon
this is: the point is not on any edge, and a ray from the point crosses the
edges an odd number of times. -/

/-- A 2-D point / polygon vertex with exact integer coordinates. -/
abbrev Pt := Int × Int

/-- The edges of the implicitly closed polygon: consecutive vertex pairs,
last vertex joined back to the first. -/
def polygonEdges (poly : List Pt) : List (Pt × Pt) :=
  poly.zip (poly.rotate 1)

/-- Is `p` on the closed segment from `a` to `b`?  Collinearity by a zero
cross product plus a bounding-box check. -/
def onSegment (p a b : Pt) : Bool :=
  decide ((b.1 - a.1) * (p.2 - a.2) = (b.2 - a.2) * (p.1 - a.1)) &&
  decide (min a.1 b.1 ≤ p.1) && decide (p.1 ≤ max a.1 b.1) &&
  decide (min a.2 b.2 ≤ p.2) && decide (p.2 ≤ max a.2 b.2)

/-- Is `p` on the boundary of the polygon? -/
def onBoundary (poly : List Pt) (p : Pt) : Bool :=
  (polygonEdges poly).any (fun e => onSegment p e.1 e.2)

/-- Does the horizontal ray from `p` towards `+x` cross the edge `a`-`b`?
Division-free form of the classical crossing test
`p.x < a.x + (b.x - a.x) * (p.y - a.y) / (b.y - a.y)`. -/
def rayCrosses (p a b : Pt) : Bool :=
  (decide (a.2 > p.2) != decide (b.2 > p.2)) &&
  (if a.2 < b.2 then
     decide ((p.1 - a.1) * (b.2 - a.2) < (b.1 - a.1) * (p.2 - a.2))
   else
     decide ((b.1 - a.1) * (p.2 - a.2) < (p.1 - a.1) * (b.2 - a.2)))

/-- Number of edges the ray from `p` crosses. -/
def crossingNumber (poly : List Pt) (p : Pt) : Nat :=
  (polygonEdges poly).countP (fun e => rayCrosses p e.1 e.2)

/-- Strict interior containment: not on the boundary and an odd crossing
number.  Models `polygon.contains(Point(p))`. -/
def polygonContains (poly : List Pt) (p : Pt) : Bool :=
  !onBoundary poly p && crossingNumber poly p % 2 == 1

/-! ## The seven operations -/

/-- State-passing form of `remove_unneeded_cols`: copy, drop the columns not
in `columns` from the copy in place, return the copy; second component is
the caller's `df` after the call. -/
def remove_unneeded_cols_st (df : Table) (columns : List String) : Table × Table :=
  let processed_df := tableCopy df
  let irrelevant_columns := processed_df.cols.filter (fun c => !decide (c ∈ columns))
  let processed_df : Table :=
    { cols := processed_df.cols.filter (fun c => !decide (c ∈ irrelevant_columns)),
      rows := processed_df.rows.map
        (fun lr => (lr.1, lr.2.filter (fun p => !decide (p.1 ∈ irrelevant_columns)))) }
  (processed_df, df)

/-- Operation `remove_unneeded_cols df columns`: new dataframe with only the columns
listed in `columns`. -/
def remove_unneeded_cols (df : Table) (columns : List String) : Table :=
  (remove_unneeded_cols_st df columns).1

/-- Row predicate of `df['team'] == team`. -/
def teamPred (team : String) (r : Row) : Bool :=
  decide (getCol r "team" = Value.vStr team)

/-- Operation `filter_by_team df team = df[df['team'] == team]`. -/
def filter_by_team (df : Table) (team : String) : Table :=
  { cols := df.cols, rows := df.rows.filter (fun lr => teamPred team lr.2) }

/-- Row predicate of `df['side'] == side`. -/
def sidePred (side : String) (r : Row) : Bool :=
  decide (getCol r "side" = Value.vStr side)

/-- Operation `filter_by_side df side = df[df['side'] == side]`. -/
def filter_by_side (df : Table) (side : String) : Table :=
  { cols := df.cols, rows := df.rows.filter (fun lr => sidePred side lr.2) }

/-- Row predicate of `df['area_name'].isin(area_names)`. -/
def areaPred (area_names : List String) (r : Row) : Bool :=
  decide (getCol r "area_name" ∈ area_names.map Value.vStr)

/-- Operation `filter_by_area_name df area_names = df[df['area_name'].isin(area_names)]`. -/
def filter_by_area_name (df : Table) (area_names : List String) : Table :=
  { cols := df.cols, rows := df.rows.filter (fun lr => areaPred area_names lr.2) }

/-- Row predicate of the polygon filter's boolean mask:
`df['z'].between(z_bound[0], z_bound[1])` (inclusive on both ends) and
`polygon.contains(Point(row['x'], row['y']))`. -/
def polygonRowOk (polygon_coordinates : List Pt) (z_bound : Int × Int) (r : Row) : Bool :=
  match getNum r "z", getNum r "x", getNum r "y" with
  | some z, some x, some y =>
      decide (z_bound.1 ≤ z) && decide (z ≤ z_bound.2) &&
      polygonContains polygon_coordinates (x, y)
  | _, _, _ => false

/-- Operation `filter_by_polygon df polygon_coordinates z_bound`: constructing
`Polygon(polygon_coordinates)` raises for a *non-empty* coordinate list of
fewer than 3 points (a shapely linear ring needs 0 or at least 3
coordinates; `Polygon([])` builds the empty polygon without raising, and the
empty polygon contains no point); otherwise keep the rows passing the
combined mask. -/
def filter_by_polygon (df : Table) (polygon_coordinates : List Pt)
    (z_bound : Int × Int) : Except GameError Table :=
  if 0 < polygon_coordinates.length ∧ polygon_coordinates.length < 3 then
    Except.error GameError.configurationError
  else
    Except.ok { cols := df.cols,
                rows := df.rows.filter (fun lr => polygonRowOk polygon_coordinates z_bound lr.2) }

/-- Field access `item['weapon_class']`: the field's value, or a `KeyError` when the item
lacks the field. -/
def itemClass (item : InvItem) : Except GameError String :=
  match item.weapon_class with
  | some w => Except.ok w
  | none => Except.error GameError.schemaError

/-- One loop iteration of `extract_weapon_classes`: `row['inventory']` is
either `None` (empty list of classes) or a list of items, each contributing
its `weapon_class`; iterating a non-list, non-null cell is a `TypeError`. -/
def rowWeaponClasses (r : Row) : Except GameError (List String) :=
  match getCol r "inventory" with
  | Value.vNull => Except.ok []
  | Value.vInv items => items.mapM itemClass
  | _ => Except.error GameError.typeError

/-- State-passing form of `extract_weapon_classes`: copy `df`, build the
per-row class lists in row order (aborting on the first raising row), assign
them as the new `weapon_classes` column of the copy; second component is the
caller's `df` after the call. -/
def extract_weapon_classes_st (df : Table) : Except GameError Table × Table :=
  let new_df := tableCopy df
  match df.rows.mapM (fun lr => rowWeaponClasses lr.2) with
  | Except.error e => (Except.error e, df)
  | Except.ok weapon_classes =>
      (Except.ok (new_df.setCol "weapon_classes" (weapon_classes.map Value.vStrList)), df)

/-- Operation `extract_weapon_classes df`: `df` with the derived
`weapon_classes` column added. -/
def extract_weapon_classes (df : Table) : Except GameError Table :=
  (extract_weapon_classes_st df).1

/-- The scanning loop of `get_first_row_of_each_round`: `current_round`
starts as Python `None` (modelled by the null value) and a row is emitted
exactly when its `round_num` differs from `current_round`, which is then
updated to that `round_num`. -/
def firstRowsAux (current_round : Value) : List (Int × Row) → List (Int × Row)
  | [] => []
  | row :: rest =>
      let round_number := getCol row.2 "round_num"
      if round_number = current_round then
        firstRowsAux current_round rest
      else
        row :: firstRowsAux round_number rest

/-- Operation `get_first_row_of_each_round df`: the emitted rows, in scan
order (`pd.DataFrame(first_round_rows)` keeps each collected row's original
label as its index entry). -/
def get_first_row_of_each_round (df : Table) : Table :=
  { cols := df.cols, rows := firstRowsAux Value.vNull df.rows }

/-! State-passing forms of the operations that are pure expressions over
`df` (no copy, no in-place call): the input object is untouched. -/

/-- State-passing form of `filter_by_team`. -/
def filter_by_team_st (df : Table) (team : String) : Table × Table :=
  (filter_by_team df team, df)

/-- State-passing form of `filter_by_side`. -/
def filter_by_side_st (df : Table) (side : String) : Table × Table :=
  (filter_by_side df side, df)

/-- State-passing form of `filter_by_area_name`. -/
def filter_by_area_name_st (df : Table) (area_names : List String) : Table × Table :=
  (filter_by_area_name df area_names, df)

/-- State-passing form of `filter_by_polygon`. -/
def filter_by_polygon_st (df : Table) (polygon_coordinates : List Pt)
    (z_bound : Int × Int) : Except GameError Table × Table :=
  (filter_by_polygon df polygon_coordinates z_bound, df)

/-- State-passing form of `get_first_row_of_each_round`: the emitted rows are
collected into a fresh dataframe; `df` is only iterated. -/
def get_first_row_of_each_round_st (df : Table) : Table × Table :=
  (get_first_row_of_each_round df, df)

/-! ## Specification-side vocabulary -/

/-- Specification-side reading of the per-round extraction: keep a row iff
its `round_num` differs from the *previous row's* `round_num` (the first row
is compared against the null sentinel), i.e. the first row of each contiguous
run.  Unlike `firstRowsAux`, the comparison value always advances to the
current row's `round_num`, whether or not the row is kept. -/
def runStarts (prev : Value) : List (Int × Row) → List (Int × Row)
  | [] => []
  | r :: rest =>
      if getCol r.2 "round_num" = prev then runStarts (getCol r.2 "round_num") rest
      else r :: runStarts (getCol r.2 "round_num") rest

/-- A row whose `inventory` cell is well-formed for extraction: null, or a
list of items that all carry a `weapon_class` field. -/
def rowInvOk (r : Row) : Bool :=
  match getCol r "inventory" with
  | Value.vNull => true
  | Value.vInv items => items.all (fun it => it.weapon_class.isSome)
  | _ => false

/-- A row whose `inventory` cell is null or a list of items (items may still
lack a `weapon_class` field). -/
def invTyped (r : Row) : Bool :=
  match getCol r "inventory" with
  | Value.vNull => true
  | Value.vInv _ => true
  | _ => false

/-- The inventory items of a row (empty when the cell is not an item list). -/
def invItems (r : Row) : List InvItem :=
  match getCol r "inventory" with
  | Value.vInv items => items
  | _ => []

/-- Specification-side expected `weapon_classes` value of a row: empty for a
null `inventory`, otherwise the items' `weapon_class` fields in item order
(for rows satisfying `rowInvOk` every item contributes exactly one class, so
this is the sequence of the `weapon_class` field of each item). -/
def expectedClasses (r : Row) : List String :=
  match getCol r "inventory" with
  | Value.vInv items => items.filterMap (fun it => it.weapon_class)
  | _ => []

/-! ## Helper lemmas -/

theorem except_bind_ok {ε α β : Type} (a : α) (f : α → Except ε β) :
    (Except.ok a >>= f) = f a := rfl

theorem except_bind_error {ε α β : Type} (e : ε) (f : α → Except ε β) :
    ((Except.error e : Except ε α) >>= f) = Except.error e := rfl

theorem mapM_itemClass_ok (items : List InvItem)
    (h : items.all (fun it => it.weapon_class.isSome) = true) :
    items.mapM itemClass = Except.ok (items.filterMap (fun it => it.weapon_class)) := by
  induction items with
  | nil => rfl
  | cons a l ih =>
    simp only [List.all_cons, Bool.and_eq_true] at h
    obtain ⟨w, hw⟩ := Option.isSome_iff_exists.mp h.1
    have ha : itemClass a = Except.ok w := by simp [itemClass, hw]
    rw [List.mapM_cons, ha, except_bind_ok, ih h.2, except_bind_ok]
    simp [List.filterMap_cons, hw]
    rfl

theorem rowWeaponClasses_ok (r : Row) (h : rowInvOk r = true) :
    rowWeaponClasses r = Except.ok (expectedClasses r) := by
  unfold rowWeaponClasses expectedClasses
  cases heq : getCol r "inventory" with
  | vNull => rfl
  | vInv items =>
    simp only [rowInvOk, heq] at h
    exact mapM_itemClass_ok items h
  | vStr s => simp [rowInvOk, heq] at h
  | vNum n => simp [rowInvOk, heq] at h
  | vStrList ws => simp [rowInvOk, heq] at h

theorem mapM_rows_ok (l : List (Int × Row)) (h : ∀ r ∈ l, rowInvOk r.2 = true) :
    l.mapM (fun lr => rowWeaponClasses lr.2)
      = Except.ok (l.map (fun lr => expectedClasses lr.2)) := by
  induction l with
  | nil => rfl
  | cons a t ih =>
    rw [List.mapM_cons, rowWeaponClasses_ok a.2 (h a (by simp)), except_bind_ok,
      ih (fun r hr => h r (by simp [hr])), except_bind_ok]
    rfl

theorem mapM_itemClass_error (items : List InvItem)
    (h : ∃ it ∈ items, it.weapon_class = none) :
    items.mapM itemClass = Except.error GameError.schemaError := by
  induction items with
  | nil => simp at h
  | cons a t ih =>
    rw [List.mapM_cons]
    cases ha : a.weapon_class with
    | none =>
      have haa : itemClass a = Except.error GameError.schemaError := by simp [itemClass, ha]
      rw [haa, except_bind_error]
    | some w =>
      have hbad : ∃ it ∈ t, it.weapon_class = none := by
        rcases h with ⟨it, hit, hnone⟩
        rcases List.mem_cons.mp hit with h1 | h2
        · rw [h1, ha] at hnone; cases hnone
        · exact ⟨it, h2, hnone⟩
      have haa : itemClass a = Except.ok w := by simp [itemClass, ha]
      rw [haa, except_bind_ok, ih hbad, except_bind_error]

theorem rowWeaponClasses_cases (r : Row) (h : invTyped r = true) :
    (∃ ws, rowWeaponClasses r = Except.ok ws) ∨
      rowWeaponClasses r = Except.error GameError.schemaError := by
  unfold rowWeaponClasses
  cases heq : getCol r "inventory" with
  | vNull => exact Or.inl ⟨[], rfl⟩
  | vInv items =>
    by_cases hall : items.all (fun it => it.weapon_class.isSome) = true
    · exact Or.inl ⟨_, mapM_itemClass_ok items hall⟩
    · refine Or.inr (mapM_itemClass_error items ?_)
      rcases List.all_eq_false.mp (Bool.eq_false_iff.mpr hall) with ⟨it, hit, hsome⟩
      exact ⟨it, hit, Option.not_isSome_iff_eq_none.mp (by simpa using hsome)⟩
  | vStr s => simp [invTyped, heq] at h
  | vNum n => simp [invTyped, heq] at h
  | vStrList ws => simp [invTyped, heq] at h

theorem mapM_rows_error (l : List (Int × Row)) (ht : ∀ r ∈ l, invTyped r.2 = true)
    (h : ∃ r ∈ l, rowWeaponClasses r.2 = Except.error GameError.schemaError) :
    l.mapM (fun lr => rowWeaponClasses lr.2) = Except.error GameError.schemaError := by
  induction l with
  | nil => simp at h
  | cons a t ih =>
    rw [List.mapM_cons]
    rcases rowWeaponClasses_cases a.2 (ht a (by simp)) with ⟨ws, hws⟩ | herr
    · have hbad : ∃ r ∈ t, rowWeaponClasses r.2 = Except.error GameError.schemaError := by
        rcases h with ⟨r, hr, he⟩
        rcases List.mem_cons.mp hr with h1 | h2
        · rw [h1, hws] at he; cases he
        · exact ⟨r, h2, he⟩
      rw [hws, except_bind_ok, ih (fun r hr => ht r (by simp [hr])) hbad, except_bind_error]
    · rw [herr, except_bind_error]

theorem forall₂_filterMap_classes (items : List InvItem)
    (h : items.all (fun it => it.weapon_class.isSome) = true) :
    List.Forall₂ (fun it w => it.weapon_class = some w) items
      (items.filterMap (fun it => it.weapon_class)) := by
  induction items with
  | nil => exact List.Forall₂.nil
  | cons a t ih =>
    simp only [List.all_cons, Bool.and_eq_true] at h
    obtain ⟨w, hw⟩ := Option.isSome_iff_exists.mp h.1
    rw [List.filterMap_cons, hw]
    exact List.Forall₂.cons hw (ih h.2)

theorem firstRowsAux_eq_runStarts (c : Value) (l : List (Int × Row)) :
    firstRowsAux c l = runStarts c l := by
  induction l generalizing c with
  | nil => rfl
  | cons row rest ih =>
    simp only [firstRowsAux, runStarts]
    by_cases h : getCol row.2 "round_num" = c
    · rw [if_pos h, if_pos h, h, ih c]
    · rw [if_neg h, if_neg h, ih (getCol row.2 "round_num")]

theorem firstRowsAux_chain (c : Value) (l : List (Int × Row)) :
    List.Chain' (fun r r' => getCol r.2 "round_num" ≠ getCol r'.2 "round_num")
      (firstRowsAux c l) ∧
    ∀ r, (firstRowsAux c l).head? = some r → getCol r.2 "round_num" ≠ c := by
  induction l generalizing c with
  | nil => exact ⟨List.chain'_nil, by intro r hr; cases hr⟩
  | cons row rest ih =>
    simp only [firstRowsAux]
    by_cases h : getCol row.2 "round_num" = c
    · rw [if_pos h]
      exact ih c
    · rw [if_neg h]
      refine ⟨List.chain'_cons'.mpr ⟨?_, (ih (getCol row.2 "round_num")).1⟩, ?_⟩
      · intro b hb
        exact fun he => (ih (getCol row.2 "round_num")).2 b hb he.symm
      · intro r hr
        rw [List.head?_cons, Option.some.injEq] at hr
        rw [← hr]
        exact h

theorem polygonContains_nil (p : Pt) : polygonContains [] p = false := rfl

theorem setCol_rows_of_range (t : Table) (c : String) (f : Int × Row → Value)
    (hidx : t.rows.map Prod.fst = (List.range t.rows.length).map Int.ofNat) :
    (t.setCol c (t.rows.map f)).rows
      = t.rows.map (fun lr => (lr.1, setEntry lr.2 c (f lr))) := by
  show t.rows.map _ = t.rows.map _
  apply List.ext_getElem
  · simp
  · intro i h1 h2
    have hi : i < t.rows.length := by simpa using h1
    simp only [List.getElem_map]
    have hlab : (t.rows[i]).1 = Int.ofNat i := by
      have hq := congrArg (fun l => l[i]?) hidx
      simp only [List.getElem?_map] at hq
      rw [List.getElem?_eq_getElem hi, List.getElem?_range (by simpa using hi)] at hq
      simpa using hq
    have hval : seriesGet (t.rows.map f) (Int.ofNat i) = f (t.rows[i]) := by
      show (t.rows.map f).getD i Value.vNull = f (t.rows[i])
      rw [List.getD_eq_getElem?_getD, List.getElem?_map, List.getElem?_eq_getElem hi]
      rfl
    rw [hlab, hval]

/-! ## Claim theorems -/

/-- C6: no operation mutates its input table.  In the state-passing
embedding of each of the seven operations, the caller's table after the call
(second component) equals the table passed in: `remove_unneeded_cols` and
`extract_weapon_classes` apply their in-place update / column assignment to
a copy, the other operations only read `df`. -/
theorem operations_preserve_input_table (df : Table) (columns : List String)
    (team side : String) (area_names : List String)
    (poly : List Pt) (zb : Int × Int) :
    (remove_unneeded_cols_st df columns).2 = df ∧
    (filter_by_team_st df team).2 = df ∧
    (filter_by_side_st df side).2 = df ∧
    (filter_by_area_name_st df area_names).2 = df ∧
    (filter_by_polygon_st df poly zb).2 = df ∧
    (extract_weapon_classes_st df).2 = df ∧
    (get_first_row_of_each_round_st df).2 = df := by
  refine ⟨rfl, rfl, rfl, rfl, rfl, ?_, rfl⟩
  unfold extract_weapon_classes_st
  split <;> rfl

/-- C7: `remove_unneeded_cols` keeps exactly the columns of the table whose
names appear in `columns` (in original column order); keep-names absent from
the table are ignored with no error; the result has no column absent from
the original; row count is unchanged and each output row keeps its label and
is the in-order projection (a sublist) of the corresponding input row. -/
theorem remove_unneeded_cols_spec (df : Table) (columns : List String) :
    (remove_unneeded_cols df columns).cols
        = df.cols.filter (fun c => decide (c ∈ columns)) ∧
    (∀ c ∈ (remove_unneeded_cols df columns).cols, c ∈ df.cols ∧ c ∈ columns) ∧
    (remove_unneeded_cols df columns).rows.length = df.rows.length ∧
    List.Forall₂ (fun r pr => pr.1 = r.1 ∧ List.Sublist pr.2 r.2) df.rows
      (remove_unneeded_cols df columns).rows := by
  have hcols : (remove_unneeded_cols df columns).cols
      = df.cols.filter (fun c => decide (c ∈ columns)) := by
    show df.cols.filter _ = _
    refine List.filter_congr ?_
    intro x hx
    by_cases hc : x ∈ columns <;> simp [hc, hx, List.mem_filter, tableCopy]
  refine ⟨hcols, ?_, ?_, ?_⟩
  · intro c hc
    rw [hcols] at hc
    have hm := List.mem_filter.mp hc
    exact ⟨hm.1, by simpa using hm.2⟩
  · show (df.rows.map _).length = _
    exact List.length_map _ _
  · show List.Forall₂ _ df.rows (df.rows.map _)
    rw [List.forall₂_map_right_iff, List.forall₂_same]
    intro r _
    exact ⟨rfl, List.filter_sublist _⟩

/-- C7 witness: on a concrete table, a concrete retained column is a column
of the original table and of the keep-list. -/
theorem remove_unneeded_cols_spec_witness :
    ("a" ∈ (⟨["a", "b"], [(0, [("a", Value.vNum 1), ("b", Value.vNum 2)])]⟩ : Table).cols ∧
      "a" ∈ ["a", "zzz"]) ∧
    (remove_unneeded_cols ⟨["a", "b"], [(0, [("a", Value.vNum 1), ("b", Value.vNum 2)])]⟩
        ["a", "zzz"]).cols
      = (⟨["a", "b"], [(0, [("a", Value.vNum 1), ("b", Value.vNum 2)])]⟩ : Table).cols.filter
          (fun c => decide (c ∈ ["a", "zzz"])) :=
  ⟨(remove_unneeded_cols_spec ⟨["a", "b"], [(0, [("a", Value.vNum 1), ("b", Value.vNum 2)])]⟩
      ["a", "zzz"]).2.1 "a" (by decide),
    (remove_unneeded_cols_spec ⟨["a", "b"], [(0, [("a", Value.vNum 1), ("b", Value.vNum 2)])]⟩
      ["a", "zzz"]).1⟩

/-- C8: each categorical filter is idempotent: filtering an already filtered
table by the same team / side / area-name list changes nothing. -/
theorem categorical_filters_idempotent (df : Table) (team side : String)
    (area_names : List String) :
    filter_by_team (filter_by_team df team) team = filter_by_team df team ∧
    filter_by_side (filter_by_side df side) side = filter_by_side df side ∧
    filter_by_area_name (filter_by_area_name df area_names) area_names
      = filter_by_area_name df area_names := by
  refine ⟨?_, ?_, ?_⟩ <;>
    simp [filter_by_team, filter_by_side, filter_by_area_name, List.filter_filter]

/-- C9: for every filter operation the retained rows form a sublist
(subsequence, hence order-preserving and no longer) of the input rows. -/
theorem filters_preserve_row_order (df : Table) (team side : String)
    (area_names : List String) (poly : List Pt) (zb : Int × Int) (out : Table) :
    ((filter_by_team df team).rows.Sublist df.rows ∧
      (filter_by_team df team).rows.length ≤ df.rows.length) ∧
    ((filter_by_side df side).rows.Sublist df.rows ∧
      (filter_by_side df side).rows.length ≤ df.rows.length) ∧
    ((filter_by_area_name df area_names).rows.Sublist df.rows ∧
      (filter_by_area_name df area_names).rows.length ≤ df.rows.length) ∧
    (filter_by_polygon df poly zb = Except.ok out →
      out.rows.Sublist df.rows ∧ out.rows.length ≤ df.rows.length) := by
  refine ⟨⟨List.filter_sublist _, (List.filter_sublist _).length_le⟩,
    ⟨List.filter_sublist _, (List.filter_sublist _).length_le⟩,
    ⟨List.filter_sublist _, (List.filter_sublist _).length_le⟩, ?_⟩
  intro h
  unfold filter_by_polygon at h
  by_cases hcond : 0 < poly.length ∧ poly.length < 3
  · rw [if_pos hcond] at h; cases h
  · rw [if_neg hcond] at h
    rw [← Except.ok.inj h]
    exact ⟨List.filter_sublist _, (List.filter_sublist _).length_le⟩

/-- C9 witness: the polygon filter's output rows on a concrete table form a
sublist of the input rows. -/
theorem filters_preserve_row_order_witness :
    (filter_by_polygon
        ⟨["x", "y", "z"],
          [(0, [("x", Value.vNum 1), ("y", Value.vNum 1), ("z", Value.vNum 5)]),
            (1, [("x", Value.vNum 5), ("y", Value.vNum 5), ("z", Value.vNum 5)])]⟩
        [(0, 0), (0, 2), (2, 2), (2, 0)] (0, 10)
      = Except.ok ⟨["x", "y", "z"],
          [(0, [("x", Value.vNum 1), ("y", Value.vNum 1), ("z", Value.vNum 5)])]⟩) ∧
    List.Sublist
      [((0 : Int), [("x", Value.vNum 1), ("y", Value.vNum 1), ("z", Value.vNum 5)])]
      [((0 : Int), [("x", Value.vNum 1), ("y", Value.vNum 1), ("z", Value.vNum 5)]),
        (1, [("x", Value.vNum 5), ("y", Value.vNum 5), ("z", Value.vNum 5)])] :=
  ⟨by decide,
    ((filters_preserve_row_order
        ⟨["x", "y", "z"],
          [(0, [("x", Value.vNum 1), ("y", Value.vNum 1), ("z", Value.vNum 5)]),
            (1, [("x", Value.vNum 5), ("y", Value.vNum 5), ("z", Value.vNum 5)])]⟩
        "A" "T" [] [(0, 0), (0, 2), (2, 2), (2, 0)] (0, 10)
        ⟨["x", "y", "z"],
          [(0, [("x", Value.vNum 1), ("y", Value.vNum 1), ("z", Value.vNum 5)])]⟩).2.2.2
      (by decide)).1⟩

/-- C10: in the output of `get_first_row_of_each_round`, every emitted row's
`round_num` differs from the `round_num` of the row emitted immediately
before it. -/
theorem first_rows_adjacent_rounds_differ (df : Table) :
    List.Chain' (fun r r' => getCol r.2 "round_num" ≠ getCol r'.2 "round_num")
      (get_first_row_of_each_round df).rows :=
  (firstRowsAux_chain Value.vNull df.rows).1

/-- C1 counterexample: the point `(0, 1)` lies exactly on the edge from
`(0, 0)` to `(0, 2)` of the square polygon, and the row's `z = 5` lies within
`[0, 10]`, yet `filter_by_polygon` returns a table with no rows: a point
exactly on the polygon boundary is *not* included. -/
theorem filter_by_polygon_boundary_cex :
    ((((0, 0), (0, 2)) : Pt × Pt) ∈ polygonEdges [(0, 0), (0, 2), (2, 2), (2, 0)]) ∧
    onSegment (0, 1) (0, 0) (0, 2) = true ∧
    ((0 : Int) ≤ 5 ∧ (5 : Int) ≤ 10) ∧
    filter_by_polygon
        ⟨["x", "y", "z"],
          [(0, [("x", Value.vNum 0), ("y", Value.vNum 1), ("z", Value.vNum 5)])]⟩
        [(0, 0), (0, 2), (2, 2), (2, 0)] (0, 10)
      = Except.ok ⟨["x", "y", "z"], []⟩ := by decide

/-- C1 (amended): with a valid polygon, every table row whose `z` lies within
`[zMin, zMax]` inclusive and whose `(x, y)` lies strictly inside the polygon
(interior containment) is included in the result; a row whose `(x, y)` lies
exactly on the polygon boundary is excluded, whatever its `z`. -/
theorem filter_by_polygon_interior_spec :
    (∀ (df : Table) (poly : List Pt) (zb : Int × Int) (r : Int × Row) (z x y : Int),
      ¬ poly.length < 3 → r ∈ df.rows →
      getNum r.2 "z" = some z → zb.1 ≤ z → z ≤ zb.2 →
      getNum r.2 "x" = some x → getNum r.2 "y" = some y →
      polygonContains poly (x, y) = true →
      ∃ out, filter_by_polygon df poly zb = Except.ok out ∧ r ∈ out.rows) ∧
    (∀ (df : Table) (poly : List Pt) (zb : Int × Int) (out : Table) (r : Int × Row)
        (x y : Int),
      filter_by_polygon df poly zb = Except.ok out →
      getNum r.2 "x" = some x → getNum r.2 "y" = some y →
      onBoundary poly (x, y) = true →
      r ∉ out.rows) := by
  constructor
  · intro df poly zb r z x y hlen hr hz hz1 hz2 hx hy hin
    unfold filter_by_polygon
    rw [if_neg (fun hc => hlen hc.2)]
    refine ⟨_, rfl, ?_⟩
    show r ∈ df.rows.filter (fun lr => polygonRowOk poly zb lr.2)
    refine List.mem_filter.mpr ⟨hr, ?_⟩
    show polygonRowOk poly zb r.2 = true
    unfold polygonRowOk
    rw [hz, hx, hy]
    simp [hz1, hz2, hin]
  · intro df poly zb out r x y h hx hy hb
    unfold filter_by_polygon at h
    by_cases hcond : 0 < poly.length ∧ poly.length < 3
    · rw [if_pos hcond] at h; cases h
    · rw [if_neg hcond] at h
      have hout : out = ⟨df.cols, df.rows.filter (fun lr => polygonRowOk poly zb lr.2)⟩ :=
        (Except.ok.inj h).symm
      rw [hout]
      show r ∉ df.rows.filter (fun lr => polygonRowOk poly zb lr.2)
      intro hmem
      have hp : polygonRowOk poly zb r.2 = true := (List.mem_filter.mp hmem).2
      unfold polygonRowOk at hp
      cases hz' : getNum r.2 "z" with
      | none => rw [hz'] at hp; simp at hp
      | some z =>
        rw [hz', hx, hy] at hp
        simp [polygonContains, hb] at hp

/-- C1 witness: a row strictly inside the square with `z` in bounds is kept;
the boundary row of the counterexample is absent from that run's output. -/
theorem filter_by_polygon_interior_spec_witness :
    (∃ out, filter_by_polygon
        ⟨["x", "y", "z"],
          [(0, [("x", Value.vNum 1), ("y", Value.vNum 1), ("z", Value.vNum 5)])]⟩
        [(0, 0), (0, 2), (2, 2), (2, 0)] (0, 10) = Except.ok out ∧
      ((0 : Int), [("x", Value.vNum 1), ("y", Value.vNum 1), ("z", Value.vNum 5)])
        ∈ out.rows) ∧
    ((0 : Int), [("x", Value.vNum 0), ("y", Value.vNum 1), ("z", Value.vNum 5)]) ∉
      (⟨["x", "y", "z"], ([] : List (Int × Row))⟩ : Table).rows :=
  ⟨filter_by_polygon_interior_spec.1
      ⟨["x", "y", "z"],
        [(0, [("x", Value.vNum 1), ("y", Value.vNum 1), ("z", Value.vNum 5)])]⟩
      [(0, 0), (0, 2), (2, 2), (2, 0)] (0, 10)
      (0, [("x", Value.vNum 1), ("y", Value.vNum 1), ("z", Value.vNum 5)]) 5 1 1
      (by decide) (by decide) (by decide) (by decide) (by decide) (by decide) (by decide)
      (by decide),
    filter_by_polygon_interior_spec.2
      ⟨["x", "y", "z"],
        [(0, [("x", Value.vNum 0), ("y", Value.vNum 1), ("z", Value.vNum 5)])]⟩
      [(0, 0), (0, 2), (2, 2), (2, 0)] (0, 10) ⟨["x", "y", "z"], ([] : List (Int × Row))⟩
      (0, [("x", Value.vNum 0), ("y", Value.vNum 1), ("z", Value.vNum 5)]) 0 1
      (by decide) (by decide) (by decide) (by decide)⟩

/-- C2 counterexample: two cases on which the claim fails.  With a valid
square polygon and `z_bound = (5, 1)` (so `zMin > zMax`), `filter_by_polygon`
does not raise: it returns an ordinary table with no rows.  And with the
zero-vertex polygon `[]` (fewer than 3 vertices), it does not raise either:
shapely builds the empty polygon, which contains no point, so the result is
again an ordinary table with no rows. -/
theorem filter_by_polygon_zbound_cex :
    ((5 : Int) > 1 ∧
      filter_by_polygon
          ⟨["x", "y", "z"],
            [(0, [("x", Value.vNum 1), ("y", Value.vNum 1), ("z", Value.vNum 3)])]⟩
          [(0, 0), (0, 2), (2, 2), (2, 0)] (5, 1)
        = Except.ok ⟨["x", "y", "z"], []⟩) ∧
    (([] : List Pt).length < 3 ∧
      filter_by_polygon
          ⟨["x", "y", "z"],
            [(0, [("x", Value.vNum 1), ("y", Value.vNum 1), ("z", Value.vNum 3)])]⟩
          [] (0, 10)
        = Except.ok ⟨["x", "y", "z"], []⟩) := by decide

/-- C2 (amended): a polygon with one or two vertices fails with a
configuration error, propagated immediately with no partial result; a
zero-vertex polygon is not an error (the empty polygon contains no point, so
the result has no rows); and a z-bound with `zMin > zMax` is not an error
either: no row passes the inclusive z filter, so the result has no rows. -/
theorem filter_by_polygon_error_cases (df : Table) (poly : List Pt) (zb : Int × Int) :
    (0 < poly.length → poly.length < 3 →
      filter_by_polygon df poly zb = Except.error GameError.configurationError) ∧
    (filter_by_polygon df [] zb = Except.ok ⟨df.cols, []⟩) ∧
    (¬ poly.length < 3 → zb.2 < zb.1 →
      filter_by_polygon df poly zb = Except.ok ⟨df.cols, []⟩) := by
  refine ⟨?_, ?_, ?_⟩
  · intro h0 h3
    unfold filter_by_polygon
    rw [if_pos ⟨h0, h3⟩]
  · unfold filter_by_polygon
    rw [if_neg (by simp)]
    have hnil : df.rows.filter (fun lr => polygonRowOk [] zb lr.2) = [] := by
      rw [List.filter_eq_nil_iff]
      intro lr _ hp
      have hp' : polygonRowOk [] zb lr.2 = true := hp
      unfold polygonRowOk at hp'
      cases hz' : getNum lr.2 "z" with
      | none => rw [hz'] at hp'; simp at hp'
      | some z =>
        rw [hz'] at hp'
        cases hx' : getNum lr.2 "x" with
        | none => rw [hx'] at hp'; simp at hp'
        | some x =>
          rw [hx'] at hp'
          cases hy' : getNum lr.2 "y" with
          | none => rw [hy'] at hp'; simp at hp'
          | some y =>
            rw [hy'] at hp'
            simp [polygonContains_nil] at hp'
    rw [hnil]
  · intro hlen hz
    unfold filter_by_polygon
    rw [if_neg (fun hc => hlen hc.2)]
    have hnil : df.rows.filter (fun lr => polygonRowOk poly zb lr.2) = [] := by
      rw [List.filter_eq_nil_iff]
      intro lr _ hp
      have hp' : polygonRowOk poly zb lr.2 = true := hp
      unfold polygonRowOk at hp'
      cases hz' : getNum lr.2 "z" with
      | none => rw [hz'] at hp'; simp at hp'
      | some z =>
        rw [hz'] at hp'
        cases hx' : getNum lr.2 "x" with
        | none => rw [hx'] at hp'; simp at hp'
        | some x =>
          rw [hx'] at hp'
          cases hy' : getNum lr.2 "y" with
          | none => rw [hy'] at hp'; simp at hp'
          | some y =>
            rw [hy'] at hp'
            simp only [Bool.and_eq_true, decide_eq_true_eq] at hp'
            omega
    rw [hnil]

/-- C2 witness: the three behaviour cases at concrete inputs. -/
theorem filter_by_polygon_error_cases_witness :
    (0 < [((0 : Int), (0 : Int)), (1, 1)].length ∧
      [((0 : Int), (0 : Int)), (1, 1)].length < 3 ∧
      filter_by_polygon (⟨["x"], []⟩ : Table) [(0, 0), (1, 1)] (0, 10)
        = Except.error GameError.configurationError) ∧
    (filter_by_polygon (⟨["z"], [(0, [("z", Value.vNum 3)])]⟩ : Table) [] (0, 10)
      = Except.ok ⟨["z"], []⟩) ∧
    (¬ [((0 : Int), (0 : Int)), (0, 2), (2, 2), (2, 0)].length < 3 ∧ (1 : Int) < 5 ∧
      filter_by_polygon (⟨["z"], [(0, [("z", Value.vNum 3)])]⟩ : Table)
          [(0, 0), (0, 2), (2, 2), (2, 0)] (5, 1)
        = Except.ok ⟨["z"], []⟩) :=
  ⟨⟨by decide, by decide,
      (filter_by_polygon_error_cases (⟨["x"], []⟩ : Table) [(0, 0), (1, 1)] (0, 10)).1
        (by decide) (by decide)⟩,
    (filter_by_polygon_error_cases (⟨["z"], [(0, [("z", Value.vNum 3)])]⟩ : Table)
        [(0, 0), (0, 2), (2, 2), (2, 0)] (0, 10)).2.1,
    ⟨by decide, by decide,
      (filter_by_polygon_error_cases (⟨["z"], [(0, [("z", Value.vNum 3)])]⟩ : Table)
          [(0, 0), (0, 2), (2, 2), (2, 0)] (5, 1)).2.2 (by decide) (by decide)⟩⟩

/-- C3: `get_first_row_of_each_round` scans rows in table order and emits
exactly the first row of each contiguous run of equal `round_num` values
(equivalently: the rows whose `round_num` differs from the previous row's,
the first row compared against the null sentinel); on the `round_num`
sequence 1, 1, 2, 2, 1 it returns the rows at positions 0, 2 and 4, not one
row per distinct round number. -/
theorem get_first_row_run_starts :
    (∀ df : Table,
      (get_first_row_of_each_round df).rows = runStarts Value.vNull df.rows) ∧
    (∀ (cols : List String) (i0 i1 i2 i3 i4 : Int) (r0 r1 r2 r3 r4 : Row),
      getCol r0 "round_num" = Value.vNum 1 → getCol r1 "round_num" = Value.vNum 1 →
      getCol r2 "round_num" = Value.vNum 2 → getCol r3 "round_num" = Value.vNum 2 →
      getCol r4 "round_num" = Value.vNum 1 →
      get_first_row_of_each_round
          ⟨cols, [(i0, r0), (i1, r1), (i2, r2), (i3, r3), (i4, r4)]⟩
        = ⟨cols, [(i0, r0), (i2, r2), (i4, r4)]⟩) := by
  constructor
  · intro df
    exact firstRowsAux_eq_runStarts Value.vNull df.rows
  · intro cols i0 i1 i2 i3 i4 r0 r1 r2 r3 r4 h0 h1 h2 h3 h4
    unfold get_first_row_of_each_round
    simp [firstRowsAux, h0, h1, h2, h3, h4]

/-- C3 witness: the 1, 1, 2, 2, 1 scenario at a concrete table. -/
theorem get_first_row_run_starts_witness :
    get_first_row_of_each_round
        ⟨["round_num"],
          [(0, [("round_num", Value.vNum 1)]), (1, [("round_num", Value.vNum 1)]),
            (2, [("round_num", Value.vNum 2)]), (3, [("round_num", Value.vNum 2)]),
            (4, [("round_num", Value.vNum 1)])]⟩
      = ⟨["round_num"],
          [(0, [("round_num", Value.vNum 1)]), (2, [("round_num", Value.vNum 2)]),
            (4, [("round_num", Value.vNum 1)])]⟩ :=
  get_first_row_run_starts.2 ["round_num"] 0 1 2 3 4
    [("round_num", Value.vNum 1)] [("round_num", Value.vNum 1)]
    [("round_num", Value.vNum 2)] [("round_num", Value.vNum 2)]
    [("round_num", Value.vNum 1)]
    (by decide) (by decide) (by decide) (by decide) (by decide)

/-- C4 counterexample: on a table produced by the class's own team filter
(row labels 0 and 2, not the default range index), the column assignment
`new_df['weapon_classes'] = pd.Series(weapon_classes)` aligns on the index:
the row labelled 2 receives a missing value (null), not the empty sequence
its null `inventory` calls for, so the claimed per-row property fails. -/
theorem extract_weapon_classes_misaligned_cex :
    filter_by_team
        ⟨["team", "inventory"],
          [(0, [("team", Value.vStr "A"), ("inventory", Value.vNull)]),
            (1, [("team", Value.vStr "B"), ("inventory", Value.vNull)]),
            (2, [("team", Value.vStr "A"), ("inventory", Value.vNull)])]⟩ "A"
      = ⟨["team", "inventory"],
          [(0, [("team", Value.vStr "A"), ("inventory", Value.vNull)]),
            (2, [("team", Value.vStr "A"), ("inventory", Value.vNull)])]⟩ ∧
    extract_weapon_classes
        ⟨["team", "inventory"],
          [(0, [("team", Value.vStr "A"), ("inventory", Value.vNull)]),
            (2, [("team", Value.vStr "A"), ("inventory", Value.vNull)])]⟩
      = Except.ok ⟨["team", "inventory", "weapon_classes"],
          [(0, [("team", Value.vStr "A"), ("inventory", Value.vNull),
              ("weapon_classes", Value.vStrList [])]),
            (2, [("team", Value.vStr "A"), ("inventory", Value.vNull),
              ("weapon_classes", Value.vNull)])]⟩ ∧
    Value.vNull ≠ Value.vStrList [] := by decide

/-- C4 (amended): on a table whose row labels are the default range index
`0, ..., n - 1` and whose rows all have a well-formed `inventory` cell,
`extract_weapon_classes` succeeds, returning the table with an added
`weapon_classes` column, and each output row is its own input row with
`weapon_classes` set to that row's value: empty when `inventory` is null
(not an error), otherwise the items' `weapon_class` fields in item order
(the `Forall₂` clause: the classes correspond one-to-one, in order, to the
items). -/
theorem extract_weapon_classes_ok_spec (df : Table)
    (hidx : df.rows.map Prod.fst = (List.range df.rows.length).map Int.ofNat)
    (h : ∀ r ∈ df.rows, rowInvOk r.2 = true) :
    extract_weapon_classes df
        = Except.ok (Table.setCol df "weapon_classes"
            (df.rows.map (fun lr => Value.vStrList (expectedClasses lr.2)))) ∧
    (Table.setCol df "weapon_classes"
        (df.rows.map (fun lr => Value.vStrList (expectedClasses lr.2)))).rows
        = df.rows.map (fun lr =>
            (lr.1, setEntry lr.2 "weapon_classes" (Value.vStrList (expectedClasses lr.2)))) ∧
    (∀ r ∈ df.rows, getCol r.2 "inventory" = Value.vNull → expectedClasses r.2 = []) ∧
    (∀ r ∈ df.rows, List.Forall₂ (fun it w => it.weapon_class = some w)
        (invItems r.2) (expectedClasses r.2)) := by
  refine ⟨?_, ?_, ?_, ?_⟩
  · unfold extract_weapon_classes extract_weapon_classes_st tableCopy
    rw [mapM_rows_ok df.rows h]
    simp [List.map_map, Function.comp_def]
  · exact setCol_rows_of_range df "weapon_classes"
      (fun lr => Value.vStrList (expectedClasses lr.2)) hidx
  · intro r hr hnull
    unfold expectedClasses
    rw [hnull]
  · intro r hr
    have hok := h r hr
    unfold invItems expectedClasses
    cases heq : getCol r.2 "inventory" with
    | vInv items =>
      simp only [rowInvOk, heq] at hok
      exact forall₂_filterMap_classes items hok
    | vNull => exact List.Forall₂.nil
    | vStr s => exact List.Forall₂.nil
    | vNum n => exact List.Forall₂.nil
    | vStrList ws => exact List.Forall₂.nil

/-- C4 witness: a concrete default-range-index table with a null inventory
row and a two-item row extracts without error, each row receiving its own
class list. -/
theorem extract_weapon_classes_ok_spec_witness :
    extract_weapon_classes
        ⟨["inventory"],
          [(0, [("inventory", Value.vNull)]),
            (1, [("inventory", Value.vInv [⟨some "Rifle"⟩, ⟨some "Pistol"⟩])])]⟩
      = Except.ok (Table.setCol
          ⟨["inventory"],
            [(0, [("inventory", Value.vNull)]),
              (1, [("inventory", Value.vInv [⟨some "Rifle"⟩, ⟨some "Pistol"⟩])])]⟩
          "weapon_classes"
          ([(0, [("inventory", Value.vNull)]),
            ((1 : Int), [("inventory", Value.vInv [⟨some "Rifle"⟩, ⟨some "Pistol"⟩])])].map
              (fun lr => Value.vStrList (expectedClasses lr.2)))) ∧
    (Table.setCol
        ⟨["inventory"],
          [(0, [("inventory", Value.vNull)]),
            (1, [("inventory", Value.vInv [⟨some "Rifle"⟩, ⟨some "Pistol"⟩])])]⟩
        "weapon_classes"
        ([(0, [("inventory", Value.vNull)]),
          ((1 : Int), [("inventory", Value.vInv [⟨some "Rifle"⟩, ⟨some "Pistol"⟩])])].map
            (fun lr => Value.vStrList (expectedClasses lr.2)))).rows
      = [(0, [("inventory", Value.vNull)]),
          ((1 : Int), [("inventory", Value.vInv [⟨some "Rifle"⟩, ⟨some "Pistol"⟩])])].map
          (fun lr =>
            (lr.1, setEntry lr.2 "weapon_classes" (Value.vStrList (expectedClasses lr.2)))) :=
  ⟨(extract_weapon_classes_ok_spec
      ⟨["inventory"],
        [(0, [("inventory", Value.vNull)]),
          (1, [("inventory", Value.vInv [⟨some "Rifle"⟩, ⟨some "Pistol"⟩])])]⟩
      (by decide) (by decide)).1,
    (extract_weapon_classes_ok_spec
      ⟨["inventory"],
        [(0, [("inventory", Value.vNull)]),
          (1, [("inventory", Value.vInv [⟨some "Rifle"⟩, ⟨some "Pistol"⟩])])]⟩
      (by decide) (by decide)).2.1⟩

/-- C5: on a table whose rows all have a null-or-item-list `inventory` cell,
if any inventory item of any row lacks a `weapon_class` field the whole
operation fails with a schema error — no row-level skipping, no partial
result. -/
theorem extract_weapon_classes_schema_error (df : Table)
    (ht : ∀ r ∈ df.rows, invTyped r.2 = true)
    (h : ∃ r ∈ df.rows, ∃ items, getCol r.2 "inventory" = Value.vInv items ∧
        ∃ it ∈ items, it.weapon_class = none) :
    extract_weapon_classes df = Except.error GameError.schemaError := by
  have hbad : ∃ r ∈ df.rows, rowWeaponClasses r.2 = Except.error GameError.schemaError := by
    rcases h with ⟨r, hr, items, hinv, hit⟩
    refine ⟨r, hr, ?_⟩
    unfold rowWeaponClasses
    rw [hinv]
    exact mapM_itemClass_error items hit
  unfold extract_weapon_classes extract_weapon_classes_st tableCopy
  rw [mapM_rows_error df.rows ht hbad]

/-- C5 witness: a single item without a `weapon_class` field fails the whole
operation on a concrete table. -/
theorem extract_weapon_classes_schema_error_witness :
    extract_weapon_classes
        ⟨["inventory"],
          [(0, [("inventory", Value.vInv [⟨some "Rifle"⟩, ⟨none⟩])])]⟩
      = Except.error GameError.schemaError :=
  extract_weapon_classes_schema_error
    ⟨["inventory"], [(0, [("inventory", Value.vInv [⟨some "Rifle"⟩, ⟨none⟩])])]⟩
    (by decide)
    ⟨(0, [("inventory", Value.vInv [⟨some "Rifle"⟩, ⟨none⟩])]), by decide,
      [⟨some "Rifle"⟩, ⟨none⟩], by decide, ⟨none⟩, by decide, rfl⟩

end ProcessGameState
